import Mathlib

/-!
Verification of the OpenCL example repository (vector add, image rotate,
platform enumeration) against its natural-language specification.

The host programs `src/add.cpp` and `src/rotate.cpp` are embedded shallowly:

* the host-side reference `rotate` function of `rotate.cpp` becomes a pure
  Lean function over `List Int` buffers, with the C `float` angle arithmetic
  embedded as exact rational arithmetic (`Frac`, an unnormalized fraction
  type) and the C `(int)` conversion as truncation toward zero;
* the control flow of each `main` (which driver calls happen, in which
  order, which statuses are checked, what the process returns) becomes a
  trace-producing function over an abstract backend record that says which
  driver calls succeed;
* the `Cleanup` routine of `add.cpp` becomes a function from the session
  handle record to the list of release calls it performs;
* operations the spec describes but whose code is not in the repository
  (the `.cl` kernels, `selectDevice`, `createBuffer`, `enqueueKernel` of the
  generalized Session abstraction) are modelled from the spec, each marked
  as such in its doc comment.
-/

/-! ## Vector add: host data (src/add.cpp, lines 7 and 176–183) -/

/-- Embeds `const int ARRAY_SIZE = 1000;` of `add.cpp` line 7. -/
def ARRAY_SIZE : Nat := 1000

/-- Embeds the host initialization `a[i] = (float)i;` of `add.cpp` line 181.
The values 0..1000 are exactly representable in `float`, so `Int` models the
arithmetic exactly. -/
def hostA (i : Nat) : Int := i

/-- Embeds the host initialization `b[i] = (float)(ARRAY_SIZE - i);` of
`add.cpp` line 182. -/
def hostB (i : Nat) : Int := (ARRAY_SIZE : Int) - i

/-- Modelled from the spec: the elementwise-add kernel.  The kernel source
`add.cl` (loaded by `CreateProgram` in `add.cpp` line 170) is not in the
repository; the spec calls it "an elementwise-add kernel", so work-item
`gid` computes the sum of its two input elements. -/
def addKernelBody (a b : Nat → Int) (gid : Nat) : Int := a gid + b gid

/-- Embeds `size_t globalWorkSize[1] = { ARRAY_SIZE };` of `add.cpp` line 197. -/
def addGlobalWorkSize : Nat := ARRAY_SIZE

/-- Embeds `size_t localWorkSize[1] = { 1 };` of `add.cpp` line 198. -/
def addLocalWorkSize : Nat := 1

/-- The dispatch of the add kernel over `addGlobalWorkSize` work-items
(`clEnqueueNDRangeKernel` at `add.cpp` line 200) followed by the read-back
of the output buffer (`clEnqueueReadBuffer` at line 205): one output element
per work-item id. -/
def vectorAddResult : List Int :=
  (List.range addGlobalWorkSize).map (addKernelBody hostA hostB)

/-! ## Image rotate: the host reference function (src/rotate.cpp, lines 24–37)

The C function works on raw buffers with `float` trigonometric parameters.
`Frac` embeds the real-valued rotation expression exactly (an unnormalized
fraction, so every operation is plain `Int`/`Nat` arithmetic and evaluates
inside the kernel); `Frac.trunc` embeds the C `(int)` conversion, which
truncates toward zero. -/

/-- An exact rational value `num / den`, kept unnormalized. -/
structure Frac where
  num : Int
  den : Nat
  deriving DecidableEq

/-- Embeds an integer quantity promoted to `float` in C. -/
def Frac.ofInt (n : Int) : Frac := ⟨n, 1⟩

/-- Exact product of two fractions. -/
def Frac.mul (a b : Frac) : Frac := ⟨a.num * b.num, a.den * b.den⟩

/-- Exact difference of two fractions. -/
def Frac.sub (a b : Frac) : Frac := ⟨a.num * b.den - b.num * a.den, a.den * b.den⟩

/-- Exact sum of two fractions. -/
def Frac.add (a b : Frac) : Frac := ⟨a.num * b.den + b.num * a.den, a.den * b.den⟩

/-- Truncation toward zero, the effect of C's `(int)` conversion applied to
the floating-point rotation expression (for a nonnegative value the floor of
`|num| / den`, negated for a negative value). -/
def Frac.trunc (a : Frac) : Int := a.num.sign * ((a.num.natAbs / a.den : Nat) : Int)

/-- Embeds `int xc = w / 2;` of `rotate.cpp` line 27. -/
def rotXC (w : Nat) : Int := (w / 2 : Nat)

/-- Embeds `int yc = h / 2;` of `rotate.cpp` line 28. -/
def rotYC (h : Nat) : Int := (h / 2 : Nat)

/-- Embeds `int xpos = (j - xc) * cosTheta - (i - yc) * sinTheta + xc;` of
`rotate.cpp` line 31: the whole right-hand side is evaluated in `float`
(here: exactly) and truncated once at the assignment. -/
def rotXpos (w h : Nat) (sinTheta cosTheta : Frac) (i j : Nat) : Int :=
  (((Frac.ofInt ((j : Int) - rotXC w)).mul cosTheta).sub
    ((Frac.ofInt ((i : Int) - rotYC h)).mul sinTheta)).add (Frac.ofInt (rotXC w)) |>.trunc

/-- Embeds `int ypos = (j - xc) * sinTheta + (i - yc) * cosTheta + yc;` of
`rotate.cpp` line 32. -/
def rotYpos (w h : Nat) (sinTheta cosTheta : Frac) (i j : Nat) : Int :=
  (((Frac.ofInt ((j : Int) - rotXC w)).mul sinTheta).add
    ((Frac.ofInt ((i : Int) - rotYC h)).mul cosTheta)).add (Frac.ofInt (rotYC h)) |>.trunc

/-- Embeds the bounds guard `xpos >= 0 && ypos >= 0 && xpos < w && ypos < h`
of `rotate.cpp` line 33. -/
def rotGuard (w h : Nat) (sinTheta cosTheta : Frac) (i j : Nat) : Bool :=
  decide (0 ≤ rotXpos w h sinTheta cosTheta i j) &&
  decide (0 ≤ rotYpos w h sinTheta cosTheta i j) &&
  decide (rotXpos w h sinTheta cosTheta i j < (w : Int)) &&
  decide (rotYpos w h sinTheta cosTheta i j < (h : Int))

/-- The destination index `ypos * w + xpos` of `rotate.cpp` line 34 (as a
`Nat`; under `rotGuard` both coordinates are nonnegative). -/
def rotDest (w h : Nat) (sinTheta cosTheta : Frac) (i j : Nat) : Nat :=
  (rotYpos w h sinTheta cosTheta i j * (w : Int) + rotXpos w h sinTheta cosTheta i j).toNat

/-- The source index `i * w + j` of `rotate.cpp` line 34. -/
def rotSrc (w : Nat) (i j : Nat) : Nat := i * w + j

/-- The state threaded through the two nested loops of `rotate`: the output
buffer plus the instrumentation lists recording every index read from
`inbuf` and every index written to `outbuf`. -/
structure RotateAccess where
  out : List Int
  reads : List Nat
  writes : List Nat
  deriving DecidableEq

/-- Embeds one iteration of the inner loop body of `rotate` (`rotate.cpp`
lines 31–34): compute `xpos`/`ypos`, and under the bounds guard copy
`inbuf[i*w+j]` to `outbuf[ypos*w+xpos]` (recording the accesses); otherwise
the destination buffer is untouched. -/
def rotatePixel (w h : Nat) (sinTheta cosTheta : Frac) (inbuf : List Int)
    (st : RotateAccess) (p : Nat × Nat) : RotateAccess :=
  if rotGuard w h sinTheta cosTheta p.1 p.2 then
    { out := st.out.set (rotDest w h sinTheta cosTheta p.1 p.2) (inbuf.getD (rotSrc w p.1 p.2) 0)
      reads := st.reads ++ [rotSrc w p.1 p.2]
      writes := st.writes ++ [rotDest w h sinTheta cosTheta p.1 p.2] }
  else st

/-- The iteration sequence of the two nested loops of `rotate` (`rotate.cpp`
lines 29–30): `i` over `[0, h)` outer, `j` over `[0, w)` inner. -/
def rotCoords (w h : Nat) : List (Nat × Nat) :=
  (List.range h).flatMap (fun i => (List.range w).map (fun j => (i, j)))

/-- Embeds `rotate(inbuf, outbuf, w, h, sinTheta, cosTheta)` of `rotate.cpp`
lines 24–37, instrumented with the access lists. -/
def rotateRun (inbuf outbuf : List Int) (w h : Nat) (sinTheta cosTheta : Frac) : RotateAccess :=
  (rotCoords w h).foldl (rotatePixel w h sinTheta cosTheta inbuf) ⟨outbuf, [], []⟩

/-- The output buffer computed by `rotate`. -/
def rotateFn (inbuf outbuf : List Int) (w h : Nat) (sinTheta cosTheta : Frac) : List Int :=
  (rotateRun inbuf outbuf w h sinTheta cosTheta).out

/-- Embeds `WIDTH = 6` of `rotate.cpp` line 58. -/
def rotWIDTH : Nat := 6

/-- Embeds `HEIGHT = 6` of `rotate.cpp` line 59. -/
def rotHEIGHT : Nat := 6

/-- Embeds `SIN = 1.0` of `rotate.cpp` line 61 (exact in `float`). -/
def rotSIN : Frac := ⟨1, 1⟩

/-- Embeds `COS = 0.0` of `rotate.cpp` line 62 (exact in `float`). -/
def rotCOS : Frac := ⟨0, 1⟩

/-- Embeds the input population `inbuffer[i] = i;` of `rotate.cpp` lines
170–173: the 6×6 grid holding 0..35 row-major. -/
def rotInput6 : List Int := (List.range (rotWIDTH * rotHEIGHT)).map (fun i => (i : Int))

/-- The all-zero initial destination grid (`memset(outbuffer, 0, ...)`,
`rotate.cpp` line 169). -/
def rotZero6 : List Int := List.replicate (rotWIDTH * rotHEIGHT) 0

/-- The grid the 90-degree rotation produces on `rotInput6`: row `r` is
`[0, 30+r, 24+r, 18+r, 12+r, 6+r]` (column 0 keeps its default because the
source row `i = 0` maps to `xpos = 6`, out of bounds, and is dropped). -/
def rotExpected6 : List Int :=
  [0, 30, 24, 18, 12, 6,
   0, 31, 25, 19, 13, 7,
   0, 32, 26, 20, 14, 8,
   0, 33, 27, 21, 15, 9,
   0, 34, 28, 22, 16, 10,
   0, 35, 29, 23, 17, 11]

/-! ## Teardown: the Cleanup routine (src/add.cpp, lines 132–151)

`Cleanup` receives the five handle variables of `main` (all initialized to
the zero sentinel at `add.cpp` lines 155–160) and calls the matching
`clRelease*` entry point on each handle that is not zero.  It is embedded as
a function from the handle record to the list of release calls it performs;
the handles themselves are passed by value and are never reset, so a second
invocation sees the same record. -/

/-- The handle record of `main` in `add.cpp` lines 155–160: a zero value is
the "never acquired" sentinel. -/
structure AddSession where
  context : Nat
  commandQueue : Nat
  program : Nat
  kernel : Nat
  memObjects : List Nat
  deriving DecidableEq

/-- One `clRelease*` call, tagged with the released handle. -/
inductive ReleaseEvent where
  | mem (h : Nat)
  | queue (h : Nat)
  | kernel (h : Nat)
  | program (h : Nat)
  | ctx (h : Nat)
  deriving DecidableEq

/-- The handle a release call releases. -/
def ReleaseEvent.handle : ReleaseEvent → Nat
  | .mem h => h
  | .queue h => h
  | .kernel h => h
  | .program h => h
  | .ctx h => h

/-- The position of a release call in the fixed order `Cleanup` uses:
buffers, then the queue, then the kernel, then the program, then the
context. -/
def ReleaseEvent.rank : ReleaseEvent → Nat
  | .mem _ => 0
  | .queue _ => 1
  | .kernel _ => 2
  | .program _ => 3
  | .ctx _ => 4

/-- Embeds `Cleanup` of `add.cpp` lines 132–151: the loop over
`memObjects[0..2]` releasing each nonzero buffer, then the queue, the
kernel, the program and the context, each only when nonzero. -/
def Cleanup (s : AddSession) : List ReleaseEvent :=
  (s.memObjects.filterMap (fun h => if h ≠ 0 then some (ReleaseEvent.mem h) else none)) ++
  (if s.commandQueue ≠ 0 then [ReleaseEvent.queue s.commandQueue] else []) ++
  (if s.kernel ≠ 0 then [ReleaseEvent.kernel s.kernel] else []) ++
  (if s.program ≠ 0 then [ReleaseEvent.program s.program] else []) ++
  (if s.context ≠ 0 then [ReleaseEvent.ctx s.context] else [])

/-- The fresh session of `add.cpp` `main` lines 155–160: every handle starts
at the zero sentinel. -/
def freshAddSession : AddSession := ⟨0, 0, 0, 0, [0, 0, 0]⟩

/-- A session in which every stage completed: all five handles (and the
three buffer slots) hold distinct nonzero driver handles. -/
def fullAddSession : AddSession := ⟨1, 2, 3, 4, [5, 6, 7]⟩

/-- Release calls performed by the teardown block of `rotate.cpp` `main`
(lines 267–272), in source order: the queue first, then the output buffer,
the kernel, the program, and the context last (the input buffer is never
released there). -/
def rotateTeardown : List ReleaseEvent :=
  [ReleaseEvent.queue 2, ReleaseEvent.mem 6, ReleaseEvent.kernel 4,
   ReleaseEvent.program 3, ReleaseEvent.ctx 1]

/-! ## The control flow of the two main programs

Each `main` is embedded as a function from an abstract backend record
(which driver calls succeed, how many platforms exist) to the sequence of
host-visible steps it performs and the value it returns.  The embedding
follows the C control flow statement by statement; in `add.cpp` no driver
status is ever checked by `main`, so its trace and exit status do not
depend on the backend at all beyond the three checks made inside the helper
functions. -/

/-- One host-visible step of a main program. -/
inductive HostStep where
  | getPlatformIDs
  | getPlatformInfo
  | createContextFromType
  | getContextInfo
  | createCommandQueue
  | openKernelFile
  | createProgramWithSource
  | buildProgram
  | queryBuildLog
  | createKernel
  | createBuffer
  | setKernelArg
  | enqueueNDRangeKernel
  | finishQueue
  | readBuffer
  | printResults
  | printText (msg : String)
  | release (e : ReleaseEvent)
  | freeHostMemory
  deriving DecidableEq

/-- The backend statuses `add.cpp` receives (whether each driver call it
makes would succeed).  Only `platformOk`, `deviceCount` and `fileOpenOk`
influence the control flow: every other status is received and ignored by
the program. -/
structure AddBackend where
  platformOk : Bool
  contextOk : Bool
  deviceCount : Nat
  fileOpenOk : Bool
  buildOk : Bool
  kernelOk : Bool
  enqueueOk : Bool
  readOk : Bool
  deriving DecidableEq

/-- Embeds `CreateContext` of `add.cpp` lines 14–39: on platform-query
failure it prints and returns a null context (the caller does not check);
otherwise it creates the context (whose status is not checked). -/
def addCreateContextSteps (b : AddBackend) : List HostStep :=
  if b.platformOk then [.getPlatformIDs, .createContextFromType]
  else [.getPlatformIDs, .printText "Failed to find any OpenCL platforms."]

/-- Embeds `CreateCommandQueue` of `add.cpp` lines 48–74: the device-list
size query, the early return when no device is reported, then the device
query and the queue creation (whose status is not checked). -/
def addCreateCommandQueueSteps (b : AddBackend) : List HostStep :=
  if b.deviceCount = 0 then [.getContextInfo, .printText "No devices available."]
  else [.getContextInfo, .getContextInfo, .createCommandQueue]

/-- Embeds `CreateProgram` of `add.cpp` lines 82–107: the kernel-source file
open (checked), then program creation and `clBuildProgram`, whose status is
assigned to `errNum` and never inspected; no build log is ever queried. -/
def addCreateProgramSteps (b : AddBackend) : List HostStep :=
  if b.fileOpenOk then [.openKernelFile, .createProgramWithSource, .buildProgram]
  else [.openKernelFile, .printText "Failed to open file for reading"]

/-- Embeds `CreateMemObjects` of `add.cpp` lines 114–124: three
`clCreateBuffer` calls whose results are stored unchecked; the function
returns `true` unconditionally. -/
def addCreateMemObjectsOk : Bool := true

/-- Embeds `main` of `add.cpp` lines 153–219: the helper stages in order,
then kernel creation, buffer creation, argument binding, the dispatch, the
blocking read-back, the result print loop and `Cleanup` — none of these
conditioned on any driver status (the `CreateMemObjects` guard is the one
branch, and its condition is constantly `true`). -/
def addMainTrace (b : AddBackend) : List HostStep :=
  addCreateContextSteps b ++
  addCreateCommandQueueSteps b ++
  addCreateProgramSteps b ++
  [.createKernel] ++
  (if addCreateMemObjectsOk then
    [.createBuffer, .createBuffer, .createBuffer,
     .setKernelArg, .setKernelArg, .setKernelArg,
     .enqueueNDRangeKernel, .readBuffer, .printResults,
     .printText "Executed program succesfully."] ++
    (Cleanup fullAddSession).map .release
  else (Cleanup fullAddSession).map .release)

/-- The value `main` of `add.cpp` returns: `1` on the dead
`CreateMemObjects` branch (line 189), `0` otherwise (line 218).  No other
return statement exists in `main`, so the exit status never reflects a
driver failure. -/
def addMainExit (_b : AddBackend) : Int :=
  if addCreateMemObjectsOk then 0 else 1

/-- The backend statuses `rotate.cpp` receives, one per checked driver
call. -/
structure RotateBackend where
  platformCountOk : Bool
  numPlatforms : Nat
  platformIdsOk : Bool
  contextOk : Bool
  contextSizeOk : Bool
  devicesAllocOk : Bool
  contextDevicesOk : Bool
  fileOpenOk : Bool
  buildOk : Bool
  kernelOk : Bool
  inBufferOk : Bool
  outBufferOk : Bool
  arg0Ok : Bool
  arg1Ok : Bool
  arg2Ok : Bool
  arg3Ok : Bool
  arg4Ok : Bool
  arg5Ok : Bool
  queueOk : Bool
  enqueueOk : Bool
  finishOk : Bool
  readOk : Bool
  deriving DecidableEq

/-- One checked stage of `rotate.cpp`'s `main`: the driver-call steps the
stage performs, whether its checked status succeeds, the fixed diagnostic
printed on failure, and the value `main` returns on failure. -/
structure Stage where
  steps : List HostStep
  ok : Bool
  failSteps : List HostStep
  failCode : Int

/-- Sequential check-and-early-return control flow: perform each stage's
steps in order; at the first stage whose status check fails, print its
diagnostic and return its failure code; when every check passes, perform
the tail (the success epilogue) and return its value. -/
def runStages (acc : List HostStep) : List Stage → List HostStep × Int → List HostStep × Int
  | [], tail => (acc ++ tail.1, tail.2)
  | st :: rest, tail =>
    if st.ok then runStages (acc ++ st.steps) rest tail
    else (acc ++ st.steps ++ st.failSteps, st.failCode)

/-- The checked stages of `rotate.cpp` `main` (lines 64–260) in source
order.  Each entry embeds one driver call (or call group) followed by its
`status != CL_SUCCESS` check; the second platform-id retrieval happens (and
its check can only fail) when at least one platform exists, and the failure
at line 83 returns `-1` while every other failure returns `1`.  The
`status` check after `clCreateProgramWithSource` (line 151) reads the stale
status of the previous call and can never fire, so it is no stage. -/
def rotateStages (b : RotateBackend) : List Stage :=
  [⟨[HostStep.getPlatformIDs], b.platformCountOk,
    [HostStep.printText "clGetPlatformIDs failed (1)"], 1⟩,
   ⟨if 0 < b.numPlatforms then [HostStep.getPlatformIDs] else [],
    !decide (0 < b.numPlatforms) || b.platformIdsOk,
    [HostStep.printText "Error: Getting Platform Ids.(clGetPlatformIDs)"], -1⟩,
   ⟨List.replicate b.numPlatforms HostStep.getPlatformInfo ++ [HostStep.createContextFromType],
    b.contextOk, [HostStep.printText "clCreateContextFromType failed."], 1⟩,
   ⟨[HostStep.getContextInfo], b.contextSizeOk,
    [HostStep.printText "clGetContextInfo failed (1)."], 1⟩,
   ⟨[], b.devicesAllocOk, [HostStep.printText "Failed to allocate memory for devices."], 1⟩,
   ⟨[HostStep.getContextInfo], b.contextDevicesOk,
    [HostStep.printText "clGetContextInfo failed (2)."], 1⟩,
   ⟨[HostStep.openKernelFile], b.fileOpenOk,
    [HostStep.printText "Failed to open kernel file."], 1⟩,
   ⟨[HostStep.createProgramWithSource, HostStep.buildProgram], b.buildOk,
    [HostStep.printText "clBuildProgram failed."], 1⟩,
   ⟨[HostStep.createKernel], b.kernelOk, [HostStep.printText "clCreateKernel failed."], 1⟩,
   ⟨[HostStep.createBuffer], b.inBufferOk, [HostStep.printText "clCreateBuffer failed."], 1⟩,
   ⟨[HostStep.createBuffer], b.outBufferOk, [HostStep.printText "clCreateBuffer failed."], 1⟩,
   ⟨[HostStep.setKernelArg], b.arg0Ok, [HostStep.printText "clSetKernelArg failed."], 1⟩,
   ⟨[HostStep.setKernelArg], b.arg1Ok, [HostStep.printText "clSetKernelArg failed."], 1⟩,
   ⟨[HostStep.setKernelArg], b.arg2Ok, [HostStep.printText "clSetKernelArg failed."], 1⟩,
   ⟨[HostStep.setKernelArg], b.arg3Ok, [HostStep.printText "clSetKernelArg failed."], 1⟩,
   ⟨[HostStep.setKernelArg], b.arg4Ok, [HostStep.printText "clSetKernelArg failed."], 1⟩,
   ⟨[HostStep.setKernelArg], b.arg5Ok, [HostStep.printText "clSetKernelArg failed."], 1⟩,
   ⟨[HostStep.createCommandQueue], b.queueOk,
    [HostStep.printText "clCreateCommandQueue failed."], 1⟩,
   ⟨[HostStep.enqueueNDRangeKernel], b.enqueueOk,
    [HostStep.printText "clEnqueueNDRangeKernel failed."], 1⟩,
   ⟨[HostStep.finishQueue], b.finishOk, [HostStep.printText "clFinish failed."], 1⟩,
   ⟨[HostStep.readBuffer], b.readOk, [HostStep.printText "clEnqueueReadBuffer failed."], 1⟩]

/-- The success epilogue of `rotate.cpp` `main` (lines 261–277): print the
result grid, release the queue, the output buffer, the kernel, the program
and the context in that order, free the three host allocations, return 0. -/
def rotateSuccessTail : List HostStep × Int :=
  ([HostStep.printResults] ++ rotateTeardown.map HostStep.release ++
   [HostStep.freeHostMemory, HostStep.freeHostMemory, HostStep.freeHostMemory], 0)

/-- Embeds `main` of `rotate.cpp` lines 64–278: run the checked stages in
order with the success epilogue at the end. -/
def rotateMain (b : RotateBackend) : List HostStep × Int :=
  runStages [] (rotateStages b) rotateSuccessTail

/-- All driver calls `rotate.cpp` checks succeed (the platform-id retrieval
is only made, hence only checked, when at least one platform exists). -/
def rotateAllOk (b : RotateBackend) : Prop :=
  b.platformCountOk ∧ (0 < b.numPlatforms → b.platformIdsOk) ∧ b.contextOk ∧
  b.contextSizeOk ∧ b.devicesAllocOk ∧ b.contextDevicesOk ∧ b.fileOpenOk ∧
  b.buildOk ∧ b.kernelOk ∧ b.inBufferOk ∧ b.outBufferOk ∧
  b.arg0Ok ∧ b.arg1Ok ∧ b.arg2Ok ∧ b.arg3Ok ∧ b.arg4Ok ∧ b.arg5Ok ∧
  b.queueOk ∧ b.enqueueOk ∧ b.finishOk ∧ b.readOk

/-- A backend on which every driver call succeeds. -/
def rotateBackendAllOk : RotateBackend :=
  ⟨true, 1, true, true, true, true, true, true, true, true, true, true,
   true, true, true, true, true, true, true, true, true, true⟩

/-- A backend on which the kernel build fails and everything before it
succeeds. -/
def rotateBackendBuildFails : RotateBackend :=
  ⟨true, 1, true, true, true, true, true, true, false, true, true, true,
   true, true, true, true, true, true, true, true, true, true⟩

/-- An `add.cpp` backend on which the kernel build fails and everything
else succeeds. -/
def addBackendBuildFails : AddBackend := ⟨true, true, 1, true, false, true, true, true⟩

/-- A `rotate.cpp` backend on which one platform exists but the platform-id
retrieval fails. -/
def rotateBackendIdsFail : RotateBackend :=
  ⟨true, 1, false, true, true, true, true, true, true, true, true, true,
   true, true, true, true, true, true, true, true, true, true⟩

/-! ## Operations of the Session abstraction modelled from the spec

The spec (sections 4.1, 4.4, 4.5) specifies `selectDevice`, `createBuffer`
and `enqueueKernel` for the generalized Compute Session; the repository
only hand-rolls special cases of them (always the first device, always
valid buffer specs, always `localWorkSize = 1`), so the general operations
are modelled from the spec's words. -/

/-- The device-type bits of the filter bitmask (spec section 4.1). -/
inductive DeviceType where
  | Default
  | CPU
  | GPU
  | Accelerator
  | Custom
  deriving DecidableEq

/-- The bit each device type occupies in a type-filter bitmask. -/
def deviceTypeBit : DeviceType → Nat
  | .Default => 1
  | .CPU => 2
  | .GPU => 4
  | .Accelerator => 8
  | .Custom => 16

/-- A device as the enumerator sees it: its type. -/
structure Device where
  devType : DeviceType
  deriving DecidableEq

/-- Whether a device matches a type-filter bitmask. -/
def deviceMatches (typeFilter : Nat) (d : Device) : Bool :=
  decide (typeFilter &&& deviceTypeBit d.devType ≠ 0)

/-- The enumerator's failure (spec section 4.1). -/
inductive EnumError where
  | NoDeviceFound
  deriving DecidableEq

/-- Modelled from the spec: `selectDevice(platform, typeFilter)` of spec
section 4.1 — "deterministic tie-break: first device matching `typeFilter`
in enumeration order; fails with `NoDeviceFound` if the filter matches
none."  The repository has no such function: `add.cpp` line 69 and
`rotate.cpp` line 223 both take `devices[0]` of a context whose type filter
was fixed at creation. -/
def selectDevice (devices : List Device) (typeFilter : Nat) : Except EnumError Device :=
  match devices.find? (deviceMatches typeFilter) with
  | some d => Except.ok d
  | none => Except.error EnumError.NoDeviceFound

/-- The buffer access modes (spec section 3). -/
inductive AccessMode where
  | ReadOnly
  | WriteOnly
  | ReadWrite
  deriving DecidableEq

/-- The Buffer Manager's failures (spec section 4.4). -/
inductive BufferError where
  | InvalidBufferSpec
  | SizeMismatch
  deriving DecidableEq

/-- A created device buffer: its access mode and initial contents. -/
structure BufferObj where
  accessMode : AccessMode
  sizeBytes : Nat
  contents : List Nat
  deriving DecidableEq

/-- Modelled from the spec: `createBuffer(context, accessMode, sizeBytes,
optional hostData)` of spec section 4.4 — a `ReadOnly` buffer with no host
data fails with `InvalidBufferSpec`; present host data whose length differs
from `sizeBytes` fails with `SizeMismatch`.  The repository only calls
`clCreateBuffer` directly with specs that satisfy both rules (`add.cpp`
lines 117–122, `rotate.cpp` lines 174–182). -/
def createBuffer (accessMode : AccessMode) (sizeBytes : Nat)
    (hostData : Option (List Nat)) : Except BufferError BufferObj :=
  match hostData with
  | none =>
    if accessMode = AccessMode.ReadOnly then Except.error BufferError.InvalidBufferSpec
    else Except.ok ⟨accessMode, sizeBytes, List.replicate sizeBytes 0⟩
  | some d =>
    if d.length ≠ sizeBytes then Except.error BufferError.SizeMismatch
    else Except.ok ⟨accessMode, sizeBytes, d⟩

/-- The Dispatch Queue's geometry failure (spec section 4.5). -/
inductive DispatchError where
  | InvalidWorkGroupSize
  deriving DecidableEq

/-- Whether a per-dimension local extent evenly divides the global extent in
every dimension (and the two extents agree in dimension count). -/
def dividesPerDim : List Nat → List Nat → Bool
  | [], [] => true
  | g :: gs, l :: ls => decide (l ∣ g) && dividesPerDim gs ls
  | _, _ => false

/-- Modelled from the spec: `enqueueKernel(queue, kernel, globalWorkSize[],
localWorkSize[])` of spec section 4.5 — a provided `localWorkSize` "must
evenly divide `globalWorkSize` per dimension, else fails with
`InvalidWorkGroupSize`; if omitted, the backend chooses a work-group size."
The result is the work-group geometry actually used.  The repository always
passes a fixed local size of one (`add.cpp` line 198, `rotate.cpp` line
230). -/
def enqueueKernel (globalWorkSize : List Nat) (localWorkSize : Option (List Nat))
    (backendChosen : List Nat) : Except DispatchError (List Nat) :=
  match localWorkSize with
  | none => Except.ok backendChosen
  | some l =>
    if dividesPerDim globalWorkSize l then Except.ok l
    else Except.error DispatchError.InvalidWorkGroupSize

/-! ## Helper lemmas -/

/-- The source index `i * w + j` stays inside a `w * h` buffer. -/
theorem rotSrc_lt (w h i j : Nat) (hi : i < h) (hj : j < w) : rotSrc w i j < w * h := by
  unfold rotSrc
  calc i * w + j < i * w + w := by omega
    _ = (i + 1) * w := by ring
    _ ≤ h * w := Nat.mul_le_mul_right w hi
    _ = w * h := Nat.mul_comm h w

/-- Under the bounds guard the destination index stays inside a `w * h`
buffer. -/
theorem rotDest_lt (w h : Nat) (sinTheta cosTheta : Frac) (i j : Nat)
    (hg : rotGuard w h sinTheta cosTheta i j = true) :
    rotDest w h sinTheta cosTheta i j < w * h := by
  unfold rotGuard at hg
  simp only [Bool.and_eq_true, decide_eq_true_eq] at hg
  obtain ⟨⟨⟨hx0, hy0⟩, hxw⟩, hyh⟩ := hg
  set xn := (rotXpos w h sinTheta cosTheta i j).toNat with hxn_def
  set yn := (rotYpos w h sinTheta cosTheta i j).toNat with hyn_def
  have hxn : xn < w := by omega
  have hyn : yn < h := by omega
  have key : rotDest w h sinTheta cosTheta i j = yn * w + xn := by
    unfold rotDest
    have h1 : rotXpos w h sinTheta cosTheta i j = (xn : Int) := by omega
    have h2 : rotYpos w h sinTheta cosTheta i j = (yn : Int) := by omega
    rw [h1, h2, ← Nat.cast_mul, ← Nat.cast_add, Int.toNat_natCast]
  rw [key]
  calc yn * w + xn < yn * w + w := by omega
    _ = (yn + 1) * w := by ring
    _ ≤ h * w := Nat.mul_le_mul_right w hyn
    _ = w * h := Nat.mul_comm h w

/-- Every iteration index produced by the nested loops is inside the grid. -/
theorem rotCoords_mem (w h : Nat) : ∀ p ∈ rotCoords w h, p.1 < h ∧ p.2 < w := by
  intro p hp
  unfold rotCoords at hp
  simp only [List.mem_flatMap, List.mem_map, List.mem_range] at hp
  obtain ⟨i, hi, j, hj, rfl⟩ := hp
  exact ⟨hi, hj⟩

/-- The fold over any in-grid iteration sequence only accumulates in-bounds
read and write indices. -/
theorem rotateLoop_access (w h : Nat) (sinTheta cosTheta : Frac) (inbuf : List Int) :
    ∀ (ps : List (Nat × Nat)) (st : RotateAccess),
      (∀ p ∈ ps, p.1 < h ∧ p.2 < w) →
      (∀ k ∈ st.reads, k < w * h) → (∀ k ∈ st.writes, k < w * h) →
      (∀ k ∈ (ps.foldl (rotatePixel w h sinTheta cosTheta inbuf) st).reads, k < w * h) ∧
      (∀ k ∈ (ps.foldl (rotatePixel w h sinTheta cosTheta inbuf) st).writes, k < w * h) := by
  intro ps
  induction ps with
  | nil => intro st _ hr hw; exact ⟨hr, hw⟩
  | cons p ps ih =>
    intro st hps hr hw
    simp only [List.foldl_cons]
    have hp := hps p (List.mem_cons_self p ps)
    apply ih
    · intro q hq; exact hps q (List.mem_cons_of_mem p hq)
    · intro k hk
      unfold rotatePixel at hk
      by_cases hg : rotGuard w h sinTheta cosTheta p.1 p.2 = true
      · rw [if_pos hg] at hk
        simp only [List.mem_append, List.mem_singleton] at hk
        rcases hk with hk | hk
        · exact hr k hk
        · subst hk; exact rotSrc_lt w h p.1 p.2 hp.1 hp.2
      · rw [if_neg hg] at hk; exact hr k hk
    · intro k hk
      unfold rotatePixel at hk
      by_cases hg : rotGuard w h sinTheta cosTheta p.1 p.2 = true
      · rw [if_pos hg] at hk
        simp only [List.mem_append, List.mem_singleton] at hk
        rcases hk with hk | hk
        · exact hw k hk
        · subst hk; exact rotDest_lt w h sinTheta cosTheta p.1 p.2 hg
      · rw [if_neg hg] at hk; exact hw k hk

/-- The fold over an iteration sequence none of whose pixels writes cell `d`
leaves cell `d` of the destination buffer unchanged. -/
theorem rotateLoop_drop (w h : Nat) (sinTheta cosTheta : Frac) (inbuf : List Int)
    (d : Nat) (v : Int) :
    ∀ (ps : List (Nat × Nat)) (st : RotateAccess),
      (∀ p ∈ ps, ¬(rotGuard w h sinTheta cosTheta p.1 p.2 = true ∧
                   rotDest w h sinTheta cosTheta p.1 p.2 = d)) →
      (ps.foldl (rotatePixel w h sinTheta cosTheta inbuf) st).out.getD d v = st.out.getD d v := by
  intro ps
  induction ps with
  | nil => intro st _; rfl
  | cons p ps ih =>
    intro st hps
    simp only [List.foldl_cons]
    rw [ih _ (fun q hq => hps q (List.mem_cons_of_mem p hq))]
    unfold rotatePixel
    by_cases hg : rotGuard w h sinTheta cosTheta p.1 p.2 = true
    · rw [if_pos hg]
      have hd : rotDest w h sinTheta cosTheta p.1 p.2 ≠ d :=
        fun hdd => hps p (List.mem_cons_self p ps) ⟨hg, hdd⟩
      simp only [List.getD_eq_getElem?_getD]
      rw [List.getElem?_set_ne hd]
    · rw [if_neg hg]

/-! ## The claims -/

/-- C1: for the vector-add session with `N = 1000`, after initializing
`a[i] = i` and `b[i] = N - i` for every `i` in `[0, N)`, dispatching the
elementwise-add kernel over `N` work-items with `localWorkSize = 1` and
reading back the output buffer, the retrieved array satisfies
`result[i] = N` for every `i` in `[0, N)`. -/
theorem vectorAdd_result_eq (i : Nat) (hi : i < ARRAY_SIZE) :
    vectorAddResult.getD i 0 = (ARRAY_SIZE : Int) ∧ addLocalWorkSize ∣ addGlobalWorkSize := by
  refine ⟨?_, ⟨addGlobalWorkSize, (Nat.one_mul _).symm⟩⟩
  unfold vectorAddResult addGlobalWorkSize
  rw [List.getD_eq_getElem?_getD, List.getElem?_map, List.getElem?_range hi]
  simp only [Option.map_some', Option.getD_some, addKernelBody, hostA, hostB]
  omega

/-- C1 witness: the property at the concrete work-item `i = 0`. -/
theorem vectorAdd_result_eq_witness :
    0 < ARRAY_SIZE ∧
    (vectorAddResult.getD 0 0 = (ARRAY_SIZE : Int) ∧ addLocalWorkSize ∣ addGlobalWorkSize) :=
  ⟨by decide, vectorAdd_result_eq 0 (by decide)⟩

/-- C10: for every `w ≥ 1`, `h ≥ 1`, buffers of length `w * h` and arbitrary
angle parameters, every read the `rotate` reference performs is at index
`i * w + j` inside `[0, w * h)` and every write it performs is at index
`ypos * w + xpos` under the bounds guard, hence also inside `[0, w * h)`:
`rotate` never accesses either buffer out of bounds. -/
theorem rotate_memory_safe (w h : Nat) (hw : 1 ≤ w) (hh : 1 ≤ h)
    (inbuf outbuf : List Int) (sinTheta cosTheta : Frac)
    (hin : inbuf.length = w * h) (hout : outbuf.length = w * h) :
    (∀ k ∈ (rotateRun inbuf outbuf w h sinTheta cosTheta).reads, k < w * h) ∧
    (∀ k ∈ (rotateRun inbuf outbuf w h sinTheta cosTheta).writes, k < w * h) := by
  unfold rotateRun
  exact rotateLoop_access w h sinTheta cosTheta inbuf (rotCoords w h) ⟨outbuf, [], []⟩
    (rotCoords_mem w h) (by intro k hk; simp at hk) (by intro k hk; simp at hk)

/-- C10 witness: the in-bounds property at the concrete 6×6 session of
`rotate.cpp`. -/
theorem rotate_memory_safe_witness :
    (1 ≤ rotWIDTH ∧ 1 ≤ rotHEIGHT ∧ rotInput6.length = rotWIDTH * rotHEIGHT ∧
      rotZero6.length = rotWIDTH * rotHEIGHT) ∧
    ((∀ k ∈ (rotateRun rotInput6 rotZero6 rotWIDTH rotHEIGHT rotSIN rotCOS).reads,
        k < rotWIDTH * rotHEIGHT) ∧
     (∀ k ∈ (rotateRun rotInput6 rotZero6 rotWIDTH rotHEIGHT rotSIN rotCOS).writes,
        k < rotWIDTH * rotHEIGHT)) :=
  ⟨⟨by decide, by decide, by decide, by decide⟩,
   rotate_memory_safe rotWIDTH rotHEIGHT (by decide) (by decide) rotInput6 rotZero6
     rotSIN rotCOS (by decide) (by decide)⟩

/-- C2: the rotate operation maps each source pixel `(j, i)` through the
truncated rotation formula (`rotXpos`/`rotYpos`), writes `inbuf[i*w+j]` to
`outbuf[ypos*w+xpos]` exactly when `0 ≤ xpos < w` and `0 ≤ ypos < h`, drops
the pixel otherwise so that an unwritten destination cell keeps its prior
value, and on the fixed 6×6 input `0..35` with `sin = 1, cos = 0` produces
exactly the grid `rotExpected6`. -/
theorem rotate_transform_spec (w h : Nat) (hw : 1 ≤ w) (hh : 1 ≤ h)
    (sinTheta cosTheta : Frac) (inbuf outbuf : List Int) (hout : outbuf.length = w * h) :
    (∀ i j, ∀ st : RotateAccess, i < h → j < w →
      rotGuard w h sinTheta cosTheta i j = true →
      (rotatePixel w h sinTheta cosTheta inbuf st (i, j)).out =
        st.out.set (rotDest w h sinTheta cosTheta i j) (inbuf.getD (rotSrc w i j) 0) ∧
      rotDest w h sinTheta cosTheta i j < w * h) ∧
    (∀ i j, ∀ st : RotateAccess, rotGuard w h sinTheta cosTheta i j = false →
      rotatePixel w h sinTheta cosTheta inbuf st (i, j) = st) ∧
    (∀ d, (∀ p ∈ rotCoords w h, ¬(rotGuard w h sinTheta cosTheta p.1 p.2 = true ∧
             rotDest w h sinTheta cosTheta p.1 p.2 = d)) →
      (rotateFn inbuf outbuf w h sinTheta cosTheta).getD d 0 = outbuf.getD d 0) ∧
    rotateFn rotInput6 rotZero6 rotWIDTH rotHEIGHT rotSIN rotCOS = rotExpected6 := by
  refine ⟨?_, ?_, ?_, by decide⟩
  · intro i j st hi hj hg
    refine ⟨?_, rotDest_lt w h sinTheta cosTheta i j hg⟩
    unfold rotatePixel
    rw [if_pos hg]
  · intro i j st hg
    unfold rotatePixel
    rw [if_neg (by simp [hg])]
  · intro d hd
    unfold rotateFn rotateRun
    exact rotateLoop_drop w h sinTheta cosTheta inbuf d 0 (rotCoords w h) ⟨outbuf, [], []⟩ hd

/-- C2 witness: the transform at the concrete 6×6 session of `rotate.cpp`
(in particular destination column 0 receives no source pixel and keeps its
default value). -/
theorem rotate_transform_spec_witness :
    (1 ≤ rotWIDTH ∧ 1 ≤ rotHEIGHT ∧ rotZero6.length = rotWIDTH * rotHEIGHT) ∧
    ((∀ i j, ∀ st : RotateAccess, i < rotHEIGHT → j < rotWIDTH →
      rotGuard rotWIDTH rotHEIGHT rotSIN rotCOS i j = true →
      (rotatePixel rotWIDTH rotHEIGHT rotSIN rotCOS rotInput6 st (i, j)).out =
        st.out.set (rotDest rotWIDTH rotHEIGHT rotSIN rotCOS i j)
          (rotInput6.getD (rotSrc rotWIDTH i j) 0) ∧
      rotDest rotWIDTH rotHEIGHT rotSIN rotCOS i j < rotWIDTH * rotHEIGHT) ∧
    (∀ i j, ∀ st : RotateAccess, rotGuard rotWIDTH rotHEIGHT rotSIN rotCOS i j = false →
      rotatePixel rotWIDTH rotHEIGHT rotSIN rotCOS rotInput6 st (i, j) = st) ∧
    (∀ d, (∀ p ∈ rotCoords rotWIDTH rotHEIGHT,
             ¬(rotGuard rotWIDTH rotHEIGHT rotSIN rotCOS p.1 p.2 = true ∧
               rotDest rotWIDTH rotHEIGHT rotSIN rotCOS p.1 p.2 = d)) →
      (rotateFn rotInput6 rotZero6 rotWIDTH rotHEIGHT rotSIN rotCOS).getD d 0 =
        rotZero6.getD d 0) ∧
    rotateFn rotInput6 rotZero6 rotWIDTH rotHEIGHT rotSIN rotCOS = rotExpected6) :=
  ⟨⟨by decide, by decide, by decide⟩,
   rotate_transform_spec rotWIDTH rotHEIGHT (by decide) (by decide) rotSIN rotCOS
     rotInput6 rotZero6 (by decide)⟩

/-- C3: device selection is deterministic with a first-match tie-break —
whenever `selectDevice` succeeds it returns the first device matching the
type filter in enumeration order (and that device matches the filter), and
it fails with `NoDeviceFound` exactly when no enumerated device matches. -/
theorem selectDevice_first_match (devices : List Device) (typeFilter : Nat) :
    (∀ d, selectDevice devices typeFilter = Except.ok d →
      deviceMatches typeFilter d = true ∧
      ∃ k, ∃ hk : k < devices.length, devices.get ⟨k, hk⟩ = d ∧
        ∀ m, ∀ hm : m < devices.length, m < k →
          deviceMatches typeFilter (devices.get ⟨m, hm⟩) = false) ∧
    (selectDevice devices typeFilter = Except.error EnumError.NoDeviceFound ↔
      ∀ d ∈ devices, deviceMatches typeFilter d = false) := by
  induction devices with
  | nil =>
    constructor
    · intro d hd
      simp [selectDevice] at hd
    · simp [selectDevice]
  | cons a l ih =>
    by_cases ha : deviceMatches typeFilter a = true
    · constructor
      · intro d hd
        unfold selectDevice at hd
        rw [List.find?_cons_of_pos l ha] at hd
        simp only [Except.ok.injEq] at hd
        subst hd
        refine ⟨ha, 0, Nat.succ_pos _, rfl, ?_⟩
        intro m hm hm0
        omega
      · constructor
        · intro hd
          unfold selectDevice at hd
          rw [List.find?_cons_of_pos l ha] at hd
          exact absurd hd (by simp)
        · intro hall
          have := hall a (List.mem_cons_self a l)
          rw [ha] at this
          exact absurd this (by simp)
    · have hsel : selectDevice (a :: l) typeFilter = selectDevice l typeFilter := by
        unfold selectDevice
        rw [List.find?_cons_of_neg l ha]
      constructor
      · intro d hd
        rw [hsel] at hd
        obtain ⟨hmatch, k, hk, hget, hfirst⟩ := ih.1 d hd
        refine ⟨hmatch, k + 1, Nat.succ_lt_succ hk, hget, ?_⟩
        intro m hm hmk
        match m, hm with
        | 0, _ => simpa using ha
        | m + 1, hm =>
          exact hfirst m (Nat.lt_of_succ_lt_succ hm) (Nat.lt_of_succ_lt_succ hmk)
      · rw [hsel, ih.2]
        constructor
        · intro hall d hd
          rcases List.mem_cons.mp hd with rfl | hd
          · simpa using ha
          · exact hall d hd
        · intro hall d hd
          exact hall d (List.mem_cons_of_mem a hd)

/-- Every release the buffer loop of `Cleanup` performs targets a nonzero
buffer handle, and it releases handle `hdl` as often as `hdl` occurs among
the buffer slots. -/
theorem memSegment_count (ms : List Nat) (hdl : Nat) (hh : hdl ≠ 0) :
    (ms.filterMap (fun x => if x ≠ 0 then some (ReleaseEvent.mem x) else none)).count
      (ReleaseEvent.mem hdl) = ms.count hdl := by
  induction ms with
  | nil => rfl
  | cons a l ih =>
    by_cases ha : a = 0
    · subst ha
      simp only [List.filterMap_cons, ne_eq, not_true_eq_false, if_false, reduceIte]
      rw [ih, List.count_cons]
      simp [Ne.symm hh]
    · simp only [List.filterMap_cons, ne_eq, ha, not_false_eq_true, if_true, reduceIte]
      rw [List.count_cons, List.count_cons, ih]
      by_cases hahdl : a = hdl
      · subst hahdl; simp
      · simp [hahdl]

/-- The buffer loop of `Cleanup` performs no queue, kernel, program or
context release. -/
theorem memSegment_count_other (ms : List Nat) (e : ReleaseEvent)
    (he : ∀ x, e ≠ ReleaseEvent.mem x) :
    (ms.filterMap (fun x => if x ≠ 0 then some (ReleaseEvent.mem x) else none)).count e = 0 := by
  induction ms with
  | nil => rfl
  | cons a l ih =>
    by_cases ha : a = 0
    · subst ha
      simpa using ih
    · simp only [List.filterMap_cons, ne_eq, ha, not_false_eq_true, if_true, reduceIte]
      rw [List.count_cons, ih]
      simp [(he a).symm]

/-- Every event in `Cleanup s` releases a nonzero handle. -/
theorem cleanup_handles_nonzero (s : AddSession) : ∀ r ∈ Cleanup s, r.handle ≠ 0 := by
  intro r hr
  unfold Cleanup at hr
  simp only [List.mem_append] at hr
  rcases hr with ((((hr | hr) | hr) | hr) | hr)
  · rw [List.mem_filterMap] at hr
    obtain ⟨x, _, hx⟩ := hr
    by_cases hx0 : x = 0
    · subst hx0; simp at hx
    · rw [if_pos hx0] at hx
      cases hx
      simpa [ReleaseEvent.handle] using hx0
  · by_cases hq : s.commandQueue ≠ 0
    · rw [if_pos hq] at hr
      simp only [List.mem_singleton] at hr
      subst hr; simpa [ReleaseEvent.handle] using hq
    · rw [if_neg hq] at hr; simp at hr
  · by_cases hk : s.kernel ≠ 0
    · rw [if_pos hk] at hr
      simp only [List.mem_singleton] at hr
      subst hr; simpa [ReleaseEvent.handle] using hk
    · rw [if_neg hk] at hr; simp at hr
  · by_cases hp : s.program ≠ 0
    · rw [if_pos hp] at hr
      simp only [List.mem_singleton] at hr
      subst hr; simpa [ReleaseEvent.handle] using hp
    · rw [if_neg hp] at hr; simp at hr
  · by_cases hc : s.context ≠ 0
    · rw [if_pos hc] at hr
      simp only [List.mem_singleton] at hr
      subst hr; simpa [ReleaseEvent.handle] using hc
    · rw [if_neg hc] at hr; simp at hr

/-- C4 counterexample: `Cleanup` never resets a handle to the zero sentinel,
so on the fully constructed session a second invocation sees the same
nonzero handles and the context (handle 1) is released twice — the claim
"invoking teardown twice releases no resource twice" fails. -/
theorem cleanup_double_release_counterexample :
    ¬((Cleanup fullAddSession ++ Cleanup fullAddSession).count (ReleaseEvent.ctx 1) ≤ 1) := by
  decide

/-- C4 (amended): one invocation of teardown is safe from any partially
constructed state — it releases only nonzero handles, each acquired
resource exactly once (a fresh session releases nothing) — but a second
invocation sees the unchanged handle record and repeats every release, so
double invocation releases every acquired resource twice. -/
theorem cleanup_partial_state_safe (s : AddSession) (e : ReleaseEvent) :
    (∀ r ∈ Cleanup s, r.handle ≠ 0) ∧
    Cleanup freshAddSession = [] ∧
    (Cleanup s ++ Cleanup s).count e = 2 * (Cleanup s).count e ∧
    ((Cleanup s).count (ReleaseEvent.ctx s.context) = if s.context = 0 then 0 else 1) ∧
    ((Cleanup s).count (ReleaseEvent.queue s.commandQueue) =
      if s.commandQueue = 0 then 0 else 1) ∧
    ((Cleanup s).count (ReleaseEvent.kernel s.kernel) = if s.kernel = 0 then 0 else 1) ∧
    ((Cleanup s).count (ReleaseEvent.program s.program) = if s.program = 0 then 0 else 1) ∧
    (∀ hdl, hdl ≠ 0 → (Cleanup s).count (ReleaseEvent.mem hdl) = s.memObjects.count hdl) := by
  refine ⟨cleanup_handles_nonzero s, by decide, ?_, ?_, ?_, ?_, ?_, ?_⟩
  · rw [List.count_append]; omega
  · unfold Cleanup
    simp only [List.count_append]
    rw [memSegment_count_other _ _ (by intro x hx; cases hx)]
    split_ifs <;> simp_all [List.count_cons, List.count_nil]
  · unfold Cleanup
    simp only [List.count_append]
    rw [memSegment_count_other _ _ (by intro x hx; cases hx)]
    split_ifs <;> simp_all [List.count_cons, List.count_nil]
  · unfold Cleanup
    simp only [List.count_append]
    rw [memSegment_count_other _ _ (by intro x hx; cases hx)]
    split_ifs <;> simp_all [List.count_cons, List.count_nil]
  · unfold Cleanup
    simp only [List.count_append]
    rw [memSegment_count_other _ _ (by intro x hx; cases hx)]
    split_ifs <;> simp_all [List.count_cons, List.count_nil]
  · intro hdl hh
    unfold Cleanup
    simp only [List.count_append]
    rw [memSegment_count s.memObjects hdl hh]
    split_ifs <;> simp_all [List.count_cons, List.count_nil]

/-- An element of a conditional singleton segment is that singleton. -/
theorem mem_ite_singleton {c : Prop} [Decidable c] {e a : ReleaseEvent}
    (ha : a ∈ if c then [e] else []) : a = e := by
  split_ifs at ha
  · simpa using ha
  · cases ha

/-- A conditional singleton segment is trivially ordered. -/
theorem pairwise_ite_singleton (c : Prop) [Decidable c] (e : ReleaseEvent) :
    List.Pairwise (fun a b => a.rank ≤ b.rank) (if c then [e] else []) := by
  split_ifs <;> simp

/-- Appending two rank-ordered segments separated by a threshold stays
rank-ordered. -/
theorem pairwise_rank_append (l1 l2 : List ReleaseEvent) (n : Nat)
    (h1 : List.Pairwise (fun a b => a.rank ≤ b.rank) l1)
    (h2 : List.Pairwise (fun a b => a.rank ≤ b.rank) l2)
    (hub : ∀ a ∈ l1, a.rank ≤ n) (hlb : ∀ b ∈ l2, n ≤ b.rank) :
    List.Pairwise (fun a b => a.rank ≤ b.rank) (l1 ++ l2) := by
  rw [List.pairwise_append]
  exact ⟨h1, h2, fun a ha b hb => Nat.le_trans (hub a ha) (hlb b hb)⟩

/-- Every release the buffer loop of `Cleanup` emits is a buffer release. -/
theorem memSegment_rank (ms : List Nat) :
    ∀ r ∈ ms.filterMap (fun x => if x ≠ 0 then some (ReleaseEvent.mem x) else none),
      ReleaseEvent.rank r = 0 := by
  intro r hr
  rw [List.mem_filterMap] at hr
  obtain ⟨x, _, hx⟩ := hr
  by_cases hx0 : x = 0
  · subst hx0; simp at hx
  · rw [if_pos hx0] at hx
    cases hx
    rfl

/-- C5 counterexample: in `add.cpp` the kernel (handle 4) is released after
the queue (handle 2), and in `rotate.cpp` the output buffer (handle 6) is
released after the queue — the claim "Buffers, Kernels and the Program are
released before the Queue" fails on both programs. -/
theorem cleanup_order_counterexample :
    ¬(List.indexOf (ReleaseEvent.kernel 4) (Cleanup fullAddSession) <
        List.indexOf (ReleaseEvent.queue 2) (Cleanup fullAddSession)) ∧
    ¬(List.indexOf (ReleaseEvent.mem 6) rotateTeardown <
        List.indexOf (ReleaseEvent.queue 2) rotateTeardown) := by
  decide

/-- Every release call has rank at most the context's rank. -/
theorem rank_le_four (e : ReleaseEvent) : e.rank ≤ 4 := by
  cases e <;> simp [ReleaseEvent.rank]

/-- C5 (amended): `add.cpp`'s `Cleanup` releases in the fixed order buffers,
queue, kernel, program, context (so the queue precedes the kernel and the
program, and the context is released last whenever it was acquired);
`rotate.cpp`'s teardown releases the queue first, then the output buffer,
the kernel, the program and the context last.  Device and platform handles
have no release call in either program. -/
theorem cleanup_release_order (s : AddSession) :
    List.Pairwise (fun a b => ReleaseEvent.rank a ≤ ReleaseEvent.rank b) (Cleanup s) ∧
    (s.context ≠ 0 → ∃ t, Cleanup s = t ++ [ReleaseEvent.ctx s.context]) ∧
    rotateTeardown.head? = some (ReleaseEvent.queue 2) ∧
    rotateTeardown.getLast? = some (ReleaseEvent.ctx 1) ∧
    List.indexOf (ReleaseEvent.queue 2) rotateTeardown <
      List.indexOf (ReleaseEvent.kernel 4) rotateTeardown := by
  refine ⟨?_, ?_, by decide, by decide, by decide⟩
  · unfold Cleanup
    have hQ : ∀ b ∈ (if s.commandQueue ≠ 0 then [ReleaseEvent.queue s.commandQueue] else []),
        ReleaseEvent.rank b = 1 := fun b hb => by rw [mem_ite_singleton hb]; rfl
    have hK : ∀ b ∈ (if s.kernel ≠ 0 then [ReleaseEvent.kernel s.kernel] else []),
        ReleaseEvent.rank b = 2 := fun b hb => by rw [mem_ite_singleton hb]; rfl
    have hP : ∀ b ∈ (if s.program ≠ 0 then [ReleaseEvent.program s.program] else []),
        ReleaseEvent.rank b = 3 := fun b hb => by rw [mem_ite_singleton hb]; rfl
    have hC : ∀ b ∈ (if s.context ≠ 0 then [ReleaseEvent.ctx s.context] else []),
        ReleaseEvent.rank b = 4 := fun b hb => by rw [mem_ite_singleton hb]; rfl
    have p1 : List.Pairwise (fun a b => ReleaseEvent.rank a ≤ ReleaseEvent.rank b)
        ((s.memObjects.filterMap (fun x => if x ≠ 0 then some (ReleaseEvent.mem x) else none)) ++
         (if s.commandQueue ≠ 0 then [ReleaseEvent.queue s.commandQueue] else [])) := by
      refine pairwise_rank_append _ _ 1
        (List.pairwise_of_forall_mem_list (fun a ha b hb => ?_))
        (pairwise_ite_singleton _ _) (fun a ha => ?_) (fun b hb => ?_)
      · have h1 := memSegment_rank s.memObjects a ha
        have h2 := memSegment_rank s.memObjects b hb
        omega
      · have := memSegment_rank s.memObjects a ha
        omega
      · have := hQ b hb
        omega
    have p2 : List.Pairwise (fun a b => ReleaseEvent.rank a ≤ ReleaseEvent.rank b)
        (((s.memObjects.filterMap (fun x => if x ≠ 0 then some (ReleaseEvent.mem x) else none)) ++
          (if s.commandQueue ≠ 0 then [ReleaseEvent.queue s.commandQueue] else [])) ++
         (if s.kernel ≠ 0 then [ReleaseEvent.kernel s.kernel] else [])) := by
      refine pairwise_rank_append _ _ 2 p1 (pairwise_ite_singleton _ _)
        (fun a ha => ?_) (fun b hb => ?_)
      · rcases List.mem_append.mp ha with ha | ha
        · have := memSegment_rank s.memObjects a ha
          omega
        · have := hQ a ha
          omega
      · have := hK b hb
        omega
    have p3 : List.Pairwise (fun a b => ReleaseEvent.rank a ≤ ReleaseEvent.rank b)
        ((((s.memObjects.filterMap (fun x => if x ≠ 0 then some (ReleaseEvent.mem x) else none)) ++
           (if s.commandQueue ≠ 0 then [ReleaseEvent.queue s.commandQueue] else [])) ++
          (if s.kernel ≠ 0 then [ReleaseEvent.kernel s.kernel] else [])) ++
         (if s.program ≠ 0 then [ReleaseEvent.program s.program] else [])) := by
      refine pairwise_rank_append _ _ 3 p2 (pairwise_ite_singleton _ _)
        (fun a ha => ?_) (fun b hb => ?_)
      · rcases List.mem_append.mp ha with ha | ha
        · rcases List.mem_append.mp ha with ha | ha
          · have := memSegment_rank s.memObjects a ha
            omega
          · have := hQ a ha
            omega
        · have := hK a ha
          omega
      · have := hP b hb
        omega
    refine pairwise_rank_append _ _ 4 p3 (pairwise_ite_singleton _ _)
      (fun a _ => rank_le_four a) (fun b hb => ?_)
    have := hC b hb
    omega
  · intro hc
    refine ⟨((s.memObjects.filterMap (fun h => if h ≠ 0 then some (ReleaseEvent.mem h) else none)) ++
      (if s.commandQueue ≠ 0 then [ReleaseEvent.queue s.commandQueue] else []) ++
      (if s.kernel ≠ 0 then [ReleaseEvent.kernel s.kernel] else []) ++
      (if s.program ≠ 0 then [ReleaseEvent.program s.program] else [])), ?_⟩
    unfold Cleanup
    rw [if_pos hc]

/-- In `add.cpp`, whatever the backend statuses are, `main` always attempts
kernel creation, never queries a build log, and always prints the result
array: no driver status is checked on the way. -/
theorem addTrace_facts (ab : AddBackend) :
    HostStep.createKernel ∈ addMainTrace ab ∧
    HostStep.queryBuildLog ∉ addMainTrace ab ∧
    HostStep.printResults ∈ addMainTrace ab := by
  by_cases h1 : ab.platformOk <;> by_cases h2 : ab.deviceCount = 0 <;>
    by_cases h3 : ab.fileOpenOk <;>
    simp [addMainTrace, addCreateContextSteps, addCreateCommandQueueSteps,
      addCreateProgramSteps, addCreateMemObjectsOk, h1, h2, h3, Cleanup, fullAddSession]

/-- C6 counterexample: on the backend where the kernel build fails,
`add.cpp` still attempts kernel creation from the failed program and never
queries the build log — the claim that the session reaches teardown without
kernel creation and carries the backend's diagnostic log fails. -/
theorem compile_failure_counterexample :
    addBackendBuildFails.buildOk = false ∧
    HostStep.createKernel ∈ addMainTrace addBackendBuildFails ∧
    HostStep.queryBuildLog ∉ addMainTrace addBackendBuildFails := by
  decide

/-- C6 (amended): when the kernel build fails, `add.cpp` ignores the build
status entirely — it queries no build log and goes on to create a kernel
from the failed program — while `rotate.cpp` detects the failure, prints a
fixed message that is not the backend's log, exits with status 1 without
attempting kernel creation, and releases nothing on the way out. -/
theorem compile_failure_behavior (ab : AddBackend) (rb : RotateBackend)
    (hpre : rb.platformCountOk = true ∧ rb.platformIdsOk = true ∧ rb.contextOk = true ∧
      rb.contextSizeOk = true ∧ rb.devicesAllocOk = true ∧ rb.contextDevicesOk = true ∧
      rb.fileOpenOk = true)
    (hbuild : rb.buildOk = false) :
    (HostStep.createKernel ∈ addMainTrace ab ∧ HostStep.queryBuildLog ∉ addMainTrace ab) ∧
    (rotateMain rb).2 = 1 ∧
    HostStep.createKernel ∉ (rotateMain rb).1 ∧
    HostStep.queryBuildLog ∉ (rotateMain rb).1 ∧
    (∀ e : ReleaseEvent, HostStep.release e ∉ (rotateMain rb).1) ∧
    HostStep.printText "clBuildProgram failed." ∈ (rotateMain rb).1 := by
  obtain ⟨h1, h2, h3, h4, h5, h6, h7⟩ := hpre
  refine ⟨⟨(addTrace_facts ab).1, (addTrace_facts ab).2.1⟩, ?_, ?_, ?_, ?_, ?_⟩
  · by_cases hnp : 0 < rb.numPlatforms <;>
      simp [rotateMain, runStages, rotateStages, rotateSuccessTail, h1, h2, h3, h4, h5, h6, h7, hbuild, hnp]
  · by_cases hnp : 0 < rb.numPlatforms <;>
      simp [rotateMain, runStages, rotateStages, rotateSuccessTail, h1, h2, h3, h4, h5, h6, h7, hbuild, hnp, List.mem_replicate]
  · by_cases hnp : 0 < rb.numPlatforms <;>
      simp [rotateMain, runStages, rotateStages, rotateSuccessTail, h1, h2, h3, h4, h5, h6, h7, hbuild, hnp, List.mem_replicate]
  · intro e
    by_cases hnp : 0 < rb.numPlatforms <;>
      simp [rotateMain, runStages, rotateStages, rotateSuccessTail, h1, h2, h3, h4, h5, h6, h7, hbuild, hnp, List.mem_replicate]
  · by_cases hnp : 0 < rb.numPlatforms <;>
      simp [rotateMain, runStages, rotateStages, rotateSuccessTail, h1, h2, h3, h4, h5, h6, h7, hbuild, hnp, List.mem_replicate]

/-- C6 witness: the amended behavior at the two concrete build-failure
backends. -/
theorem compile_failure_behavior_witness :
    ((rotateBackendBuildFails.platformCountOk = true ∧
      rotateBackendBuildFails.platformIdsOk = true ∧
      rotateBackendBuildFails.contextOk = true ∧
      rotateBackendBuildFails.contextSizeOk = true ∧
      rotateBackendBuildFails.devicesAllocOk = true ∧
      rotateBackendBuildFails.contextDevicesOk = true ∧
      rotateBackendBuildFails.fileOpenOk = true) ∧
     rotateBackendBuildFails.buildOk = false) ∧
    ((HostStep.createKernel ∈ addMainTrace addBackendBuildFails ∧
      HostStep.queryBuildLog ∉ addMainTrace addBackendBuildFails) ∧
     (rotateMain rotateBackendBuildFails).2 = 1 ∧
     HostStep.createKernel ∉ (rotateMain rotateBackendBuildFails).1 ∧
     HostStep.queryBuildLog ∉ (rotateMain rotateBackendBuildFails).1 ∧
     (∀ e : ReleaseEvent, HostStep.release e ∉ (rotateMain rotateBackendBuildFails).1) ∧
     HostStep.printText "clBuildProgram failed." ∈ (rotateMain rotateBackendBuildFails).1) :=
  ⟨⟨by decide, by decide⟩,
   compile_failure_behavior addBackendBuildFails rotateBackendBuildFails
     ⟨by decide, by decide, by decide, by decide, by decide, by decide, by decide⟩ (by decide)⟩

/-- C7 counterexample: `add.cpp` exits with status 0 and prints the result
array even when the kernel build failed, and `rotate.cpp` returns `-1`
(not 1) when the platform-id retrieval fails — the claim "exit status is 0
exactly when all stages succeed and 1 on any stage failure, with no garbage
results printed on failure" fails. -/
theorem exit_status_counterexample :
    addBackendBuildFails.buildOk = false ∧
    addMainExit addBackendBuildFails = 0 ∧
    HostStep.printResults ∈ addMainTrace addBackendBuildFails ∧
    (rotateMain rotateBackendIdsFail).2 = -1 := by
  decide


/-- A step that occurs neither in the accumulated prefix nor in any stage
cannot occur in the trace of a run that never reached the tail. -/
theorem runStages_fail_not_mem (x : HostStep) :
    ∀ (stages : List Stage) (acc : List HostStep) (tail : List HostStep × Int),
      x ∉ acc → (∀ st ∈ stages, x ∉ st.steps ∧ x ∉ st.failSteps) →
      (runStages acc stages tail).2 ≠ tail.2 → x ∉ (runStages acc stages tail).1 := by
  intro stages
  induction stages with
  | nil =>
    intro acc tail hacc hst hne
    simp [runStages] at hne
  | cons st rest ih =>
    intro acc tail hacc hst hne
    have hmem := hst st (List.mem_cons_self st rest)
    by_cases hok : st.ok = true
    · rw [runStages, if_pos hok] at hne ⊢
      refine ih _ tail ?_ (fun q hq => hst q (List.mem_cons_of_mem st hq)) hne
      simp only [List.mem_append]
      rintro (h | h)
      · exact hacc h
      · exact hmem.1 h
    · rw [runStages, if_neg hok]
      simp only [List.mem_append]
      rintro ((h | h) | h)
      · exact hacc h
      · exact hmem.1 h
      · exact hmem.2 h

/-- The run returns the tail's value exactly when every stage check passes
(provided no failure code coincides with the tail's value). -/
theorem runStages_exit_iff :
    ∀ (stages : List Stage) (acc : List HostStep) (tail : List HostStep × Int),
      (∀ st ∈ stages, st.failCode ≠ tail.2) →
      ((runStages acc stages tail).2 = tail.2 ↔ ∀ st ∈ stages, st.ok = true) := by
  intro stages
  induction stages with
  | nil => intro acc tail _; simp [runStages]
  | cons st rest ih =>
    intro acc tail hcodes
    by_cases hok : st.ok = true
    · rw [runStages, if_pos hok,
        ih _ tail (fun q hq => hcodes q (List.mem_cons_of_mem st hq))]
      simp [hok]
    · rw [runStages, if_neg hok]
      constructor
      · intro hc
        exact absurd hc (hcodes st (List.mem_cons_self st rest))
      · intro hall
        exact absurd (hall st (List.mem_cons_self st rest)) hok

/-- The run's exit value is either the tail's or one of the failure codes. -/
theorem runStages_exit_cases :
    ∀ (stages : List Stage) (acc : List HostStep) (tail : List HostStep × Int),
      (runStages acc stages tail).2 = tail.2 ∨
      ∃ st ∈ stages, (runStages acc stages tail).2 = st.failCode := by
  intro stages
  induction stages with
  | nil => intro acc tail; left; rfl
  | cons st rest ih =>
    intro acc tail
    by_cases hok : st.ok = true
    · rw [runStages, if_pos hok]
      rcases ih (acc ++ st.steps) tail with h | ⟨q, hq, h⟩
      · exact Or.inl h
      · exact Or.inr ⟨q, List.mem_cons_of_mem st hq, h⟩
    · rw [runStages, if_neg hok]
      exact Or.inr ⟨st, List.mem_cons_self st rest, rfl⟩

/-- All stage checks of `rotate.cpp` pass exactly when `rotateAllOk` holds. -/
theorem rotateStages_ok_iff (b : RotateBackend) :
    (∀ st ∈ rotateStages b, st.ok = true) ↔ rotateAllOk b := by
  unfold rotateStages rotateAllOk
  simp only [List.forall_mem_cons]
  constructor
  · rintro ⟨c1, c2, c3, c4, c5, c6, c7, c8, c9, c10, c11, c12, c13, c14, c15, c16, c17,
      c18, c19, c20, c21, -⟩
    simp only [Bool.or_eq_true, Bool.not_eq_true', decide_eq_false_iff_not] at c2
    refine ⟨c1, ?_, c3, c4, c5, c6, c7, c8, c9, c10, c11, c12, c13, c14, c15, c16, c17,
      c18, c19, c20, c21⟩
    intro hnp
    rcases c2 with c2 | c2
    · exact absurd hnp c2
    · exact c2
  · rintro ⟨c1, c2, c3, c4, c5, c6, c7, c8, c9, c10, c11, c12, c13, c14, c15, c16, c17,
      c18, c19, c20, c21⟩
    refine ⟨c1, ?_, c3, c4, c5, c6, c7, c8, c9, c10, c11, c12, c13, c14, c15, c16, c17,
      c18, c19, c20, c21, fun x hx => absurd hx (List.not_mem_nil x)⟩
    simp only [Bool.or_eq_true, Bool.not_eq_true', decide_eq_false_iff_not]
    by_cases hnp : 0 < b.numPlatforms
    · exact Or.inr (c2 hnp)
    · exact Or.inl hnp

/-- The result print happens in no checked stage of `rotate.cpp` (only in
the success epilogue). -/
theorem printResults_not_in_stages (b : RotateBackend) :
    ∀ st ∈ rotateStages b,
      HostStep.printResults ∉ st.steps ∧ HostStep.printResults ∉ st.failSteps := by
  intro st hst
  fin_cases hst <;>
    refine ⟨?_, by simp⟩ <;> (try split_ifs) <;> simp [List.mem_append, List.mem_replicate]

/-- C7 (amended): `rotate.cpp` exits 0 exactly when every checked stage
succeeds, never prints results on a failing run, and its only exit values
are 0, 1 and -1 (the -1 on the platform-id retrieval path); `add.cpp`
checks nothing: it exits 0 and prints the result array on every backend,
including failing ones. -/
theorem exit_status_behavior (rb : RotateBackend) (ab : AddBackend) :
    ((rotateMain rb).2 = 0 ↔ rotateAllOk rb) ∧
    ((rotateMain rb).2 ≠ 0 → HostStep.printResults ∉ (rotateMain rb).1) ∧
    ((rotateMain rb).2 = 0 ∨ (rotateMain rb).2 = 1 ∨ (rotateMain rb).2 = -1) ∧
    addMainExit ab = 0 ∧ HostStep.printResults ∈ addMainTrace ab := by
  refine ⟨?_, ?_, ?_, by simp [addMainExit, addCreateMemObjectsOk], (addTrace_facts ab).2.2⟩
  · have h := runStages_exit_iff (rotateStages rb) [] rotateSuccessTail ?_
    · rw [show rotateSuccessTail.2 = 0 from rfl] at h
      rw [rotateMain, h, rotateStages_ok_iff]
    · intro st hst
      rw [show rotateSuccessTail.2 = 0 from rfl]
      fin_cases hst <;> simp
  · intro hne
    rw [rotateMain] at hne ⊢
    refine runStages_fail_not_mem HostStep.printResults (rotateStages rb) [] rotateSuccessTail
      (by simp) (printResults_not_in_stages rb) ?_
    rw [show rotateSuccessTail.2 = 0 from rfl]
    exact hne
  · rcases runStages_exit_cases (rotateStages rb) [] rotateSuccessTail with h | ⟨st, hst, h⟩
    · left
      rw [rotateMain, h]
      rfl
    · rw [rotateMain, h]
      fin_cases hst <;> simp

/-- C8: a buffer-creation request with `accessMode = ReadOnly` and no host
data fails with `InvalidBufferSpec`, and a request whose host data's length
differs from `sizeBytes` fails with `SizeMismatch`. -/
theorem createBuffer_validation (accessMode : AccessMode) (sizeBytes : Nat)
    (hostData : Option (List Nat)) :
    (hostData = none → accessMode = AccessMode.ReadOnly →
      createBuffer accessMode sizeBytes hostData = Except.error BufferError.InvalidBufferSpec) ∧
    (∀ d, hostData = some d → d.length ≠ sizeBytes →
      createBuffer accessMode sizeBytes hostData = Except.error BufferError.SizeMismatch) := by
  constructor
  · rintro rfl rfl
    simp [createBuffer]
  · rintro d rfl hlen
    simp [createBuffer, hlen]

/-- The per-dimension divisibility check of `enqueueKernel` really divides
every dimension. -/
theorem dividesPerDim_divides :
    ∀ (g l : List Nat), dividesPerDim g l = true →
      ∀ k, ∀ hg : k < g.length, ∀ hl : k < l.length, l.get ⟨k, hl⟩ ∣ g.get ⟨k, hg⟩ := by
  intro g
  induction g with
  | nil =>
    intro l _ k hg
    cases hg
  | cons a gs ih =>
    intro l hdiv k hg hl
    match l, hl with
    | b :: ls, hl =>
      unfold dividesPerDim at hdiv
      simp only [Bool.and_eq_true, decide_eq_true_eq] at hdiv
      match k, hg, hl with
      | 0, _, _ => exact hdiv.1
      | k + 1, hg, hl =>
        exact ih ls hdiv.2 k (Nat.lt_of_succ_lt_succ hg) (Nat.lt_of_succ_lt_succ hl)

/-- C9: a dispatch whose provided local work size fails to divide the
global work size in some dimension fails with `InvalidWorkGroupSize`, and a
dispatch with the local work size omitted succeeds with the backend-chosen
geometry. -/
theorem enqueueKernel_work_group (globalWorkSize localWorkSize backendChosen : List Nat) :
    ((∃ k, ∃ hg : k < globalWorkSize.length, ∃ hl : k < localWorkSize.length,
        ¬(localWorkSize.get ⟨k, hl⟩ ∣ globalWorkSize.get ⟨k, hg⟩)) →
      enqueueKernel globalWorkSize (some localWorkSize) backendChosen =
        Except.error DispatchError.InvalidWorkGroupSize) ∧
    enqueueKernel globalWorkSize none backendChosen = Except.ok backendChosen := by
  constructor
  · rintro ⟨k, hg, hl, hnd⟩
    unfold enqueueKernel
    by_cases hdv : dividesPerDim globalWorkSize localWorkSize = true
    · exact absurd (dividesPerDim_divides globalWorkSize localWorkSize hdv k hg hl) hnd
    · simp [hdv]
  · rfl
